import Mathlib

/-!
Shallow embedding of the USBProxy `Manager` core (src/lib/Manager.cpp) and
verification of the frozen claims about it.

The embedding follows the source: the `Manager_status` enum, the filter and
injector registries (`add_filter` / `remove_filter` / `add_injector` /
`remove_injector` / `get_filter` / `get_injector`), the `setConfig` dispatch,
the device-proxy connect loop of `start_control_relaying`, the endpoint and
relay tables touched by `start_data_relaying` and `stop_relaying`, and the
EP0 injector-application loop.  Logging (`fprintf`) has no effect on Manager
state and is dropped throughout; comments note every other elision.
-/

namespace USBProxy

/-- The `Manager_status` enum of Manager.h / Manager.cpp. -/
inductive Manager_status
  | USBM_IDLE
  | USBM_SETUP
  | USBM_RELAYING
  | USBM_STOPPING
  | USBM_SETUP_ABORT
  | USBM_RESET
deriving DecidableEq, Repr

open Manager_status

/-- The two proxies a relay endpoint can be bound to
(`deviceProxy` / `hostProxy` members of Manager). -/
inductive ProxyId
  | devProxy
  | hostProxy
deriving DecidableEq, Repr

/-! ## Device model slice used by `Manager::setConfig`

`Device::get_configuration(index)` returns a `Configuration*` (possibly NULL),
modelled as `List.get?` over a list of configuration identifiers; the
`DeviceQualifier`, when present, carries its own configurations. -/

/-- The slice of the `Device` model that `Manager::setConfig` reads and
writes: the configurations (by index), the optional `DeviceQualifier`'s
configurations, the `is_highspeed()` flag, and the active configuration. -/
structure DeviceModel where
  configurations : List Nat
  qualifierConfigurations : Option (List Nat)
  highspeed : Bool
  active_configuration : Nat
deriving DecidableEq, Repr

/-- `Device::get_configuration(index)`: NULL (none) when out of range. -/
def DeviceModel.get_configuration (d : DeviceModel) (index : Nat) : Option Nat :=
  d.configurations.get? index

/-- `DeviceQualifier::get_configuration(index)` on the device's qualifier;
only evaluated by `setConfig` when the qualifier exists. -/
def DeviceModel.qualifier_configuration (d : DeviceModel) (index : Nat) : Option Nat :=
  (d.qualifierConfigurations.getD []).get? index

/-- One `setConfig(cfg, other_speed_cfg, is_highspeed)` call observed by a
proxy.  `arg1`/`arg2` are the two (nullable) `Configuration*` arguments. -/
structure SetConfigCall where
  proxy : ProxyId
  arg1 : Option Nat
  arg2 : Option Nat
  hs : Bool
deriving DecidableEq, Repr

/-- `Manager::setConfig(__u8 index)` (Manager.cpp lines 902-928), up to the
trailing `start_data_relaying()` call (embedded separately): updates the
device model's active configuration, then dispatches `setConfig` to the
device proxy and the host proxy.  Returns the updated device model and the
dispatched calls in program order. -/
def Manager.setConfig (d : DeviceModel) (index : Nat) :
    DeviceModel × List SetConfigCall :=
  let d' : DeviceModel := { d with active_configuration := index }
  match d'.qualifierConfigurations with
  | some _ =>
    if d'.highspeed then
      (d', [⟨ProxyId.devProxy, d'.qualifier_configuration index, d'.get_configuration index, true⟩,
            ⟨ProxyId.hostProxy, d'.qualifier_configuration index, d'.get_configuration index, true⟩])
    else
      (d', [⟨ProxyId.devProxy, d'.get_configuration index, d'.qualifier_configuration index, false⟩,
            ⟨ProxyId.hostProxy, d'.get_configuration index, d'.qualifier_configuration index, false⟩])
  | none =>
    (d', [⟨ProxyId.devProxy, d'.get_configuration index, none, d'.highspeed⟩,
          ⟨ProxyId.hostProxy, d'.get_configuration index, none, d'.highspeed⟩])

/-- The parameterization of `setConfig` as the specification words it
(three cases on qualifier presence and `is_highspeed`), for comparison
with the embedded `Manager.setConfig`. -/
def setConfigSpec (d : DeviceModel) (index : Nat) : List SetConfigCall :=
  match d.qualifierConfigurations with
  | some ql =>
    if d.highspeed then
      [⟨ProxyId.devProxy, ql.get? index, d.configurations.get? index, true⟩,
       ⟨ProxyId.hostProxy, ql.get? index, d.configurations.get? index, true⟩]
    else
      [⟨ProxyId.devProxy, d.configurations.get? index, ql.get? index, false⟩,
       ⟨ProxyId.hostProxy, d.configurations.get? index, ql.get? index, false⟩]
  | none =>
    [⟨ProxyId.devProxy, d.configurations.get? index, none, d.highspeed⟩,
     ⟨ProxyId.hostProxy, d.configurations.get? index, none, d.highspeed⟩]

/-! ## Filter and injector registries

Manager holds `PacketFilter** filters` with `filterCount`, and
`Injector** injectors` with `injectorCount`.  The C arrays are modelled as
`Option (List Nat)` (NULL pointer = `none`; elements are pointer identities)
together with the separately maintained counts, exactly as in the source:
the count is incremented/decremented by the code, not derived from the
array. -/

/-- Registry slice of the Manager state: `status`, the filter array and
count, and the injector array and count. -/
structure FState where
  status : Manager_status
  filters : Option (List Nat)
  filterCount : Nat
  injectors : Option (List Nat)
  injectorCount : Nat
deriving DecidableEq, Repr

/-- `realloc(p, n * sizeof(T*))`: the array keeps its first `n` elements;
any newly acquired cells are indeterminate, modelled as `0`.  No claim
depends on the value of an indeterminate cell. -/
def reallocList (l : List Nat) (n : Nat) : List Nat :=
  l.take n ++ List.replicate (n - l.length) 0

/-- `Manager::add_filter` (lines 258-278).  The `status` check at lines
264-267 only prints an error and falls through — there is no `return` —
so the append happens in every state. -/
def add_filter (f : Nat) (m : FState) : FState :=
  match m.filters with
  | some l =>
    { m with filterCount := m.filterCount + 1,
             filters := some ((reallocList l (m.filterCount + 1)).set m.filterCount f) }
  | none =>
    { m with filterCount := 1, filters := some [f] }

/-- `Manager::add_injector` (lines 180-200).  The `status != USBM_IDLE`
check at lines 186-189 only prints an error and falls through. -/
def add_injector (f : Nat) (m : FState) : FState :=
  match m.injectors with
  | some l =>
    { m with injectorCount := m.injectorCount + 1,
             injectors := some ((reallocList l (m.injectorCount + 1)).set m.injectorCount f) }
  | none =>
    { m with injectorCount := 1, injectors := some [f] }

/-- The element-shifting loop of `remove_filter` / `remove_injector`:
`for (i = index + 1; i < count; i++) a[i-1] = a[i];`.  Writes run in
ascending order, each target below the next read, as in the source. -/
def removeShift (l : List Nat) (index count : Nat) : List Nat :=
  (List.range' (index + 1) (count - (index + 1))).foldl
    (fun acc i => acc.set (i - 1) (acc.getD i 0)) l

/-- `Manager::remove_filter(__u8 index, bool freeMemory)` (lines 280-314).
Both the `status` check (287-290) and the bounds check (291-294) only
print an error and fall through.  The `delete(filters[index])` under
`freeMemory` frees the pointee but leaves the stored pointer in place, so
it does not change the modelled state (when `filters` is NULL the
short-circuit `freeMemory && filters[index]` dereferences NULL only if
`freeMemory`; no claim evaluates that input).  Then: a count of 1 frees
the whole array; otherwise the shift loop runs and the array is shrunk by
`realloc(filters, --filterCount * sizeof)`.  In the `count = 0` fall-through
the source decrements an unsigned count; its behaviour is allocator- and
type-dependent and no claim evaluates that input — modelled as an
indeterminate array of `count - 1` (truncated) cells. -/
def remove_filter (index : Nat) (_freeMemory : Bool) (m : FState) : FState :=
  if m.filterCount = 1 then
    { m with filterCount := 0, filters := none }
  else
    match m.filters with
    | some l =>
      { m with filterCount := m.filterCount - 1,
               filters := some (reallocList (removeShift l index m.filterCount)
                                  (m.filterCount - 1)) }
    | none =>
      { m with filterCount := m.filterCount - 1,
               filters := some (List.replicate (m.filterCount - 1) 0) }

/-- `Manager::remove_injector(__u8 index, bool freeMemory)` (lines 202-237):
identical structure to `remove_filter`, over the injector array. -/
def remove_injector (index : Nat) (_freeMemory : Bool) (m : FState) : FState :=
  if m.injectorCount = 1 then
    { m with injectorCount := 0, injectors := none }
  else
    match m.injectors with
    | some l =>
      { m with injectorCount := m.injectorCount - 1,
               injectors := some (reallocList (removeShift l index m.injectorCount)
                                    (m.injectorCount - 1)) }
    | none =>
      { m with injectorCount := m.injectorCount - 1,
               injectors := some (List.replicate (m.injectorCount - 1) 0) }

/-- `Manager::get_filter(__u8 index)` (lines 316-327): NULL when the array
is NULL or the index is out of range, otherwise the stored element.  The
function only reads; the returned state is the input state. -/
def get_filter (index : Nat) (m : FState) : Option Nat × FState :=
  (if m.filters = none ∨ m.filterCount ≤ index then none
   else (m.filters.getD []).get? index, m)

/-- `Manager::get_injector(__u8 index)` (lines 239-249): same shape over
the injector array. -/
def get_injector (index : Nat) (m : FState) : Option Nat × FState :=
  (if m.injectors = none ∨ m.injectorCount ≤ index then none
   else (m.injectors.getD []).get? index, m)

/-! ## The device-proxy connect loop of `start_control_relaying`

Manager.cpp lines 382-395:
```
int rc = deviceProxy->connect();
while (rc == ETIMEDOUT && status == USBM_SETUP) { rc = deviceProxy->connect(); }
if (rc != 0) { status = USBM_IDLE; return; }
```
The environment is modelled by the sequence of values successive
`connect()` calls return (`rs`) and the status observed at each guard
evaluation (`ss`); both lists are finite, bounding the modelled run. -/

/-- `ETIMEDOUT` of `<errno.h>` on Linux. -/
def ETIMEDOUT : Int := 110

/-- The `while (rc == ETIMEDOUT && status == USBM_SETUP) rc = connect();`
loop: `rc` is the last connect result, `ss` the statuses observed at the
successive guard evaluations, `rs` the results of the successive further
`connect()` calls.  Returns the final `rc`. -/
def connectLoop : Int → List Manager_status → List Int → Int
  | rc, s :: ss, r :: rs =>
    if rc = ETIMEDOUT ∧ s = USBM_SETUP then connectLoop r ss rs else rc
  | rc, _, _ => rc

/-- Outcome of the connect phase: `.error st` means the function returned
early with `status` set to `st` (never reaching `status = USBM_RELAYING`);
`.ok ()` means setup continues past the connect phase. -/
def connectPhase (rc0 : Int) (ss : List Manager_status) (rs : List Int) :
    Except Manager_status Unit :=
  if connectLoop rc0 ss rs ≠ 0 then .error USBM_IDLE else .ok ()

/-! ## Relay fabric state: endpoint, queue, reader and writer tables

Manager holds 16-slot arrays `in_endpoints`/`out_endpoints` (`Endpoint*`),
`in_queues`/`out_queues` (`PacketQueue*`), and `in_readers`/`in_writers`/
`out_readers`/`out_writers` (`RelayReader*` / `RelayWriter*`), plus the
`injectorThreads` vector and the `device` pointer.  Endpoints are modelled
by the descriptor fields the Manager reads; each `new PacketQueue` is given
a fresh identity from a counter so that queue sharing is observable. -/

/-- The fields of `usb_endpoint_descriptor` that `start_data_relaying`
reads (`bEndpointAddress`, `bmAttributes`). -/
structure EPDesc where
  bEndpointAddress : Nat
  bmAttributes : Nat
deriving DecidableEq, Repr

/-- A constructed `RelayReader` or `RelayWriter`: the endpoint it serves,
the proxy it was bound to, and the identity of the `PacketQueue` it was
handed (`*in_queues[i]` / `*out_queues[i]`). -/
structure RelayEnd where
  endpoint : EPDesc
  proxy : ProxyId
  queue : Nat
deriving DecidableEq, Repr

/-- The Manager state touched by `start_data_relaying` and
`stop_relaying`: status, the 16-slot tables, the injector-thread vector
(threads by identity) and the `device` pointer. -/
structure RelayState where
  status : Manager_status
  device : Option Nat
  in_endpoints : Fin 16 → Option EPDesc
  out_endpoints : Fin 16 → Option EPDesc
  in_queues : Fin 16 → Option Nat
  out_queues : Fin 16 → Option Nat
  in_readers : Fin 16 → Option RelayEnd
  in_writers : Fin 16 → Option RelayEnd
  out_readers : Fin 16 → Option RelayEnd
  out_writers : Fin 16 → Option RelayEnd
  injectorThreads : List Nat
  qctr : Nat

/-- `bmAttributes & USB_ENDPOINT_XFERTYPE_MASK == USB_ENDPOINT_XFER_ISOC`
(mask 0x03, isochronous value 0x01). -/
def isIsochronous (e : EPDesc) : Bool := e.bmAttributes % 4 = 1

/-- `bEndpointAddress & 0x80`: the direction bit (IN when set). -/
def epIsIn (e : EPDesc) : Bool := e.bEndpointAddress.testBit 7

/-- `bEndpointAddress & 0x0f`: the slot index. -/
def epSlot (e : EPDesc) : Fin 16 :=
  ⟨e.bEndpointAddress % 16, Nat.mod_lt _ (by norm_num)⟩

/-- `Manager::stop_relaying()` (lines 744-900).  From SETUP it only flags
`USBM_SETUP_ABORT` and returns; it returns unchanged unless the status is
RELAYING or SETUP_ABORT; otherwise it passes through USBM_STOPPING and
tears down: signalling and joining threads (no slot effect), nulling every
endpoint slot (lines 807-809, 830-832, and the then-dead EP0 delete at
854-858), deleting and nulling every reader and writer slot, clearing
`injectorThreads`, releasing interfaces and disconnecting both proxies
(proxy calls, no slot effect), nulling `device` (the `delete(device)` is
commented out), and finally setting `status = USBM_IDLE`.  The
`in_queues` / `out_queues` arrays are never touched by this function. -/
def stop_relaying (m : RelayState) : RelayState :=
  if m.status = USBM_SETUP then
    { m with status := USBM_SETUP_ABORT }
  else if m.status ≠ USBM_RELAYING ∧ m.status ≠ USBM_SETUP_ABORT then
    m
  else
    { m with status := USBM_IDLE,
             device := none,
             in_endpoints := fun _ => none,
             out_endpoints := fun _ => none,
             in_readers := fun _ => none,
             in_writers := fun _ => none,
             out_readers := fun _ => none,
             out_writers := fun _ => none,
             injectorThreads := [] }

/-- One iteration of the endpoint-enumeration loop of
`start_data_relaying` (lines 593-616): an isochronous endpoint is logged
and skipped (`continue`); otherwise the endpoint is installed into the
IN or OUT table at slot `addr & 0x0f` together with a fresh
`new PacketQueue`.  The `deviceProxy->set_endpoint_interface` call is a
proxy call with no Manager-state effect. -/
def install_ep (m : RelayState) (e : EPDesc) : RelayState :=
  if isIsochronous e then m
  else if epIsIn e then
    { m with in_endpoints := Function.update m.in_endpoints (epSlot e) (some e),
             in_queues := Function.update m.in_queues (epSlot e) (some m.qctr),
             qctr := m.qctr + 1 }
  else
    { m with out_endpoints := Function.update m.out_endpoints (epSlot e) (some e),
             out_queues := Function.update m.out_queues (epSlot e) (some m.qctr),
             qctr := m.qctr + 1 }

/-- The endpoint-enumeration loops of `start_data_relaying` (lines
577-619), flattened over interfaces and alternates into the list of
endpoint descriptors in iteration order. -/
def install_endpoints (m : RelayState) (eps : List EPDesc) : RelayState :=
  eps.foldl install_ep m

/-- `*in_queues[i]` / `*out_queues[i]`: the source dereferences the queue
pointer unconditionally when constructing a relay; the claims establish it
is non-NULL there, so the `none` default is never relied on. -/
def qval (q : Option Nat) : Nat := q.getD 0

/-- The relay-construction loop of `start_data_relaying` (lines 624-643):
`for (i = 1; i < 16; i++)`, creating, for each non-NULL `in_endpoints[i]`,
a RelayReader bound to the device proxy and a RelayWriter bound to the
host proxy sharing `*in_queues[i]`, and for each non-NULL
`out_endpoints[i]` a reader bound to the host proxy and a writer bound to
the device proxy sharing `*out_queues[i]`.  Each iteration touches only
index `i` and no iteration writes an endpoint or queue table, so the loop
is rendered pointwise over the index. -/
def make_relays (m : RelayState) : RelayState :=
  { m with
    in_readers := fun i =>
      if i = 0 then m.in_readers i else
      match m.in_endpoints i with
      | some e => some ⟨e, ProxyId.devProxy, qval (m.in_queues i)⟩
      | none => m.in_readers i,
    in_writers := fun i =>
      if i = 0 then m.in_writers i else
      match m.in_endpoints i with
      | some e => some ⟨e, ProxyId.hostProxy, qval (m.in_queues i)⟩
      | none => m.in_writers i,
    out_readers := fun i =>
      if i = 0 then m.out_readers i else
      match m.out_endpoints i with
      | some e => some ⟨e, ProxyId.hostProxy, qval (m.out_queues i)⟩
      | none => m.out_readers i,
    out_writers := fun i =>
      if i = 0 then m.out_writers i else
      match m.out_endpoints i with
      | some e => some ⟨e, ProxyId.devProxy, qval (m.out_queues i)⟩
      | none => m.out_writers i }

/-- `Manager::start_data_relaying()` (lines 566-742) restricted to its
effect on the endpoint/queue/reader/writer tables: endpoint enumeration
followed by relay construction.  The filter-application loop (649-665)
only adds filters to existing writers' chains, the injector-application
loop (671-705) has its entire body commented out in the source, interface
claiming (712-715) is a proxy call, and thread creation (720-738) touches
only the thread arrays — none of these create or destroy table slots. -/
def start_data_relaying (m : RelayState) (eps : List EPDesc) : RelayState :=
  make_relays (install_endpoints m eps)

/-! ## The EP0 injector-application phase of `start_control_relaying`

Lines 470-519.  The loop walks the injector list; for each injector it
re-checks `status == USBM_SETUP` (aborting via `stop_relaying(); return;`
otherwise), then tests the `device` and `endpoint` predicates — but the
entire body of the match branch (the message-queue creation and the
`set_queue` / `set_send_queue` wiring) is commented out in the source, so
a match has no effect.  Afterwards (lines 507-519) one
`std::thread(&Injector::listen, injectors[i])` is pushed for EVERY
injector, matching or not.  The status is modelled as constant during the
phase (the sequential embedding has no concurrent writer). -/

/-- An injector as seen by the EP0 loop: the results of its
`device.test(device)` and `endpoint.test(out_endpoints[0])` predicates. -/
structure InjectorM where
  devMatch : Bool
  epMatch : Bool
deriving DecidableEq, Repr

/-- One iteration of the EP0 injector loop body (lines 478-500) on the EP0
writer's set of wired injection queues: both in the matching and in the
non-matching case the writer's queues are unchanged, because the wiring
code is commented out.  `ep0Present` is the `out_endpoints[0] &&` guard. -/
def ep0InjectStep (ep0Present : Bool) (wq : List Nat) (inj : InjectorM) : List Nat :=
  if inj.devMatch ∧ ep0Present ∧ inj.epMatch then wq else wq

/-- The EP0 injector-application phase (lines 470-519): given the status
observed at the per-iteration checks, the injector list, and the EP0
writer's current injection-queue list, returns `.error` when a status
change aborts the phase, else the writer's queue list after the loop and
the injector threads created (one per injector, by index). -/
def ep0InjectorPhase (status : Manager_status) (ep0Present : Bool)
    (injs : List InjectorM) (wq : List Nat) :
    Except Unit (List Nat × List Nat) :=
  if status ≠ USBM_SETUP then .error ()
  else .ok (injs.foldl (ep0InjectStep ep0Present) wq, List.range injs.length)

/-! ## Concrete states used in witnesses and counterexamples -/

/-- A Manager in RELAYING state with empty registries: outside IDLE/RESET,
where the claims say add/remove must be rejected. -/
def relayingEmpty : FState :=
  { status := USBM_RELAYING, filters := none, filterCount := 0,
    injectors := none, injectorCount := 0 }

/-- A Manager in RELAYING state holding two filters and two injectors. -/
def relayingTwo : FState :=
  { status := USBM_RELAYING, filters := some [4, 5], filterCount := 2,
    injectors := some [8, 9], injectorCount := 2 }

/-- An idle Manager holding two filters and two injectors. -/
def idleTwo : FState :=
  { status := USBM_IDLE, filters := some [4, 5], filterCount := 2,
    injectors := some [8, 9], injectorCount := 2 }

/-- A bulk IN endpoint descriptor at address 0x81. -/
def epBulkIn : EPDesc := { bEndpointAddress := 129, bmAttributes := 2 }

/-- A bulk OUT endpoint descriptor at address 0x02. -/
def epBulkOut : EPDesc := { bEndpointAddress := 2, bmAttributes := 2 }

/-- An isochronous IN endpoint descriptor at address 0x83
(`bmAttributes & 0x03 == 0x01`). -/
def epIsoIn : EPDesc := { bEndpointAddress := 131, bmAttributes := 1 }

/-- A relaying Manager with a populated IN slot 1 (endpoint, queue 42,
reader, writer) and one injector thread. -/
def relayingLoaded : RelayState :=
  { status := USBM_RELAYING, device := some 1,
    in_endpoints := Function.update (fun _ => none) 1 (some epBulkIn),
    out_endpoints := fun _ => none,
    in_queues := Function.update (fun _ => none) 1 (some 42),
    out_queues := fun _ => none,
    in_readers := Function.update (fun _ => none) 1
      (some ⟨epBulkIn, ProxyId.devProxy, 42⟩),
    in_writers := Function.update (fun _ => none) 1
      (some ⟨epBulkIn, ProxyId.hostProxy, 42⟩),
    out_readers := fun _ => none, out_writers := fun _ => none,
    injectorThreads := [0], qctr := 43 }

/-- The same Manager while still in SETUP. -/
def setupLoaded : RelayState := { relayingLoaded with status := USBM_SETUP }

/-- The same Manager in IDLE. -/
def idleLoaded : RelayState := { relayingLoaded with status := USBM_IDLE }

/-- A relaying Manager with every table slot empty and no queues yet. -/
def cleanRelaying : RelayState :=
  { status := USBM_RELAYING, device := some 1,
    in_endpoints := fun _ => none, out_endpoints := fun _ => none,
    in_queues := fun _ => none, out_queues := fun _ => none,
    in_readers := fun _ => none, in_writers := fun _ => none,
    out_readers := fun _ => none, out_writers := fun _ => none,
    injectorThreads := [], qctr := 0 }

/-! ## Theorems -/

/-- C1: the state gate is not enforced.  In state RELAYING (outside
IDLE/RESET) `add_filter`, `add_injector`, `remove_filter` and
`remove_injector` all mutate the list and its count: the status checks
only print an error and fall through (no `return`), so the operations are
not rejected. -/
theorem registry_state_gate_violated :
    relayingEmpty.status = USBM_RELAYING ∧
    add_filter 7 relayingEmpty =
      { relayingEmpty with filters := some [7], filterCount := 1 } ∧
    add_injector 3 relayingEmpty =
      { relayingEmpty with injectors := some [3], injectorCount := 1 } ∧
    remove_filter 0 false relayingTwo =
      { relayingTwo with filters := some [5], filterCount := 1 } ∧
    remove_injector 0 false relayingTwo =
      { relayingTwo with injectors := some [9], injectorCount := 1 } := by
  decide

/-- C2: an out-of-range remove is not skipped.  With two filters and two
injectors (in IDLE, so the state gate passes), `remove_filter 5` and
`remove_injector 7` are out of bounds (count = 2), yet the bounds check
only prints an error and falls through: the shift loop moves nothing and
the `realloc(--count)` drops the LAST element, changing both the list and
the count (the status itself is unchanged, so the session is indeed not
aborted — but the operation is not skipped). -/
theorem remove_out_of_range_not_skipped :
    idleTwo.status = USBM_IDLE ∧ idleTwo.filterCount ≤ 5 ∧ idleTwo.injectorCount ≤ 7 ∧
    remove_filter 5 false idleTwo =
      { idleTwo with filters := some [4], filterCount := 1 } ∧
    remove_injector 7 false idleTwo =
      { idleTwo with injectors := some [8], injectorCount := 1 } := by
  decide

/-- C3: `setConfig(index)` first sets the device model's active
configuration to `index` and then dispatches `setConfig` to the device
proxy and the host proxy with exactly the parameterization the claim
states (rendered by `setConfigSpec`): with a qualifier and highspeed,
`(qualifier.get_configuration(index), device.get_configuration(index),
true)`; with a qualifier, not highspeed, the two configurations swapped
with `false`; without a qualifier, `(device.get_configuration(index),
NULL, device.is_highspeed())` — to both proxies alike. -/
theorem setConfig_dispatch_correct (d : DeviceModel) (index : Nat) :
    (Manager.setConfig d index).1.active_configuration = index ∧
    (Manager.setConfig d index).2 = setConfigSpec d index := by
  unfold Manager.setConfig setConfigSpec
  unfold DeviceModel.get_configuration DeviceModel.qualifier_configuration
  cases h : d.qualifierConfigurations with
  | none => simp [h]
  | some ql => cases hh : d.highspeed <;> simp [h, hh]

/-- C4: the connect loop of `start_control_relaying` re-invokes
`DeviceProxy::connect()` exactly while the last result is ETIMEDOUT and
the observed status is still SETUP (the two unfolding equations), and
whenever the loop's final result is non-zero the phase returns early with
`status = USBM_IDLE` — RELAYING is never reached on that path. -/
theorem connect_retry_behavior :
    (∀ (rc r : Int) (s : Manager_status) (ss : List Manager_status) (rs : List Int),
      (rc = ETIMEDOUT ∧ s = USBM_SETUP →
        connectLoop rc (s :: ss) (r :: rs) = connectLoop r ss rs) ∧
      (¬(rc = ETIMEDOUT ∧ s = USBM_SETUP) →
        connectLoop rc (s :: ss) (r :: rs) = rc)) ∧
    (∀ (rc0 : Int) (ss : List Manager_status) (rs : List Int),
      (connectLoop rc0 ss rs ≠ 0 → connectPhase rc0 ss rs = .error USBM_IDLE) ∧
      (connectLoop rc0 ss rs = 0 → connectPhase rc0 ss rs = .ok ())) := by
  constructor
  · intro rc r s ss rs
    constructor
    · intro h
      simp [connectLoop, h.1, h.2]
    · intro h
      simp only [connectLoop, if_neg h]
  · intro rc0 ss rs
    constructor
    · intro h
      simp [connectPhase, h]
    · intro h
      simp [connectPhase, h]

/-- Witness for C4: starting from an ETIMEDOUT result in SETUP, the loop
calls connect again; when that call returns 5 (≠ 0, ≠ ETIMEDOUT) the
phase aborts with status IDLE. -/
theorem connect_retry_behavior_witness :
    connectLoop ETIMEDOUT [USBM_SETUP] [5] = 5 ∧
    connectPhase ETIMEDOUT [USBM_SETUP] [5] = .error USBM_IDLE := by
  refine ⟨?_, ?_⟩
  · exact ((connect_retry_behavior.1 ETIMEDOUT 5 USBM_SETUP [] []).1 ⟨rfl, rfl⟩).trans rfl
  · exact (connect_retry_behavior.2 ETIMEDOUT [USBM_SETUP] [5]).1 (by decide)

/-- C10: `get_filter` / `get_injector` return NULL when the array is NULL
or the index is at or beyond the count, return the element stored at the
index otherwise, and leave the Manager state unchanged. -/
theorem get_filter_injector_correct (m : FState) (index : Nat) :
    ((get_filter index m).2 = m ∧ (get_injector index m).2 = m) ∧
    (m.filters = none ∨ m.filterCount ≤ index → (get_filter index m).1 = none) ∧
    (∀ l, m.filters = some l → index < m.filterCount →
      (get_filter index m).1 = l.get? index) ∧
    (m.injectors = none ∨ m.injectorCount ≤ index → (get_injector index m).1 = none) ∧
    (∀ l, m.injectors = some l → index < m.injectorCount →
      (get_injector index m).1 = l.get? index) := by
  refine ⟨⟨rfl, rfl⟩, ?_, ?_, ?_, ?_⟩
  · intro h
    simp [get_filter, h]
  · intro l hl hlt
    simp [get_filter, hl, Nat.not_le.mpr hlt]
  · intro h
    simp [get_injector, h]
  · intro l hl hlt
    simp [get_injector, hl, Nat.not_le.mpr hlt]

/-- Witness for C10 at a concrete Manager with filters `[4, 5]` (count 2)
and injectors `[8, 9]` (count 2): in-range and out-of-range reads, and
state preservation. -/
theorem get_filter_injector_correct_witness :
    (get_filter 1 idleTwo).1 = some 5 ∧
    (get_filter 5 idleTwo).1 = none ∧
    (get_injector 0 idleTwo).1 = some 8 ∧
    (get_injector 2 idleTwo).1 = none ∧
    (get_filter 1 idleTwo).2 = idleTwo := by
  refine ⟨?_, ?_, ?_, ?_, ?_⟩
  · exact ((get_filter_injector_correct idleTwo 1).2.2.1 [4, 5] rfl (by decide)).trans rfl
  · exact (get_filter_injector_correct idleTwo 5).2.1 (Or.inr (by decide))
  · exact ((get_filter_injector_correct idleTwo 0).2.2.2.2 [8, 9] rfl (by decide)).trans rfl
  · exact (get_filter_injector_correct idleTwo 2).2.2.2.1 (Or.inr (by decide))
  · exact (get_filter_injector_correct idleTwo 1).1.1

/-- C5 counterexample: after `stop_relaying` drives a relaying Manager to
IDLE, the queue slot `in_queues[1]` still holds its PacketQueue — the
queue slots are not released (`stop_relaying` never touches `in_queues` /
`out_queues`), refuting the claim that all per-endpoint queue slots are
released on reaching IDLE. -/
theorem stop_relaying_leaves_queue_slots :
    (stop_relaying relayingLoaded).status = USBM_IDLE ∧
    (stop_relaying relayingLoaded).in_queues 1 = some 42 ∧
    relayingLoaded.in_queues 1 = some 42 := by
  refine ⟨rfl, ?_, ?_⟩ <;> decide

/-- C5 amended: when `stop_relaying` acts from RELAYING or SETUP_ABORT it
drives the state to IDLE, releases every endpoint, reader and writer slot,
and empties `injectorThreads` — but it leaves the `in_queues` /
`out_queues` slots unchanged: the PacketQueues created in
`start_data_relaying` are not destroyed by `stop_relaying`. -/
theorem stop_relaying_teardown (m : RelayState)
    (h : m.status = USBM_RELAYING ∨ m.status = USBM_SETUP_ABORT) :
    (stop_relaying m).status = USBM_IDLE ∧
    (stop_relaying m).injectorThreads = [] ∧
    (∀ i, (stop_relaying m).in_endpoints i = none ∧
          (stop_relaying m).out_endpoints i = none ∧
          (stop_relaying m).in_readers i = none ∧
          (stop_relaying m).in_writers i = none ∧
          (stop_relaying m).out_readers i = none ∧
          (stop_relaying m).out_writers i = none) ∧
    (stop_relaying m).in_queues = m.in_queues ∧
    (stop_relaying m).out_queues = m.out_queues := by
  rcases h with h | h <;>
    simp [stop_relaying, h]

/-- Witness for C5 (amended) at the concrete relaying Manager: teardown
reaches IDLE, empties the slot tables and thread list, and preserves the
queue tables. -/
theorem stop_relaying_teardown_witness :
    (stop_relaying relayingLoaded).status = USBM_IDLE ∧
    (stop_relaying relayingLoaded).in_readers 1 = none ∧
    (stop_relaying relayingLoaded).injectorThreads = [] ∧
    (stop_relaying relayingLoaded).in_queues = relayingLoaded.in_queues := by
  have h := stop_relaying_teardown relayingLoaded (Or.inl rfl)
  exact ⟨h.1, (h.2.2.1 1).2.2.1, h.2.1, h.2.2.2.1⟩

/-- C6 counterexample: a single `stop_relaying` call from SETUP acts (the
status changes) but does not drive teardown to IDLE — it only flags
SETUP_ABORT and returns; only a second call completes teardown.  This
refutes the claim that whenever `stop_relaying` acts it drives teardown
to IDLE (and with it strict idempotence, since applying it once and twice
from SETUP differ). -/
theorem stop_relaying_setup_not_idle :
    setupLoaded.status = USBM_SETUP ∧
    stop_relaying setupLoaded = { setupLoaded with status := USBM_SETUP_ABORT } ∧
    (stop_relaying setupLoaded).status ≠ USBM_IDLE ∧
    (stop_relaying (stop_relaying setupLoaded)).status = USBM_IDLE := by
  exact ⟨rfl, rfl, by decide, rfl⟩

/-- C6 amended: `stop_relaying` is a no-op (the state is returned
untouched) unless the status is SETUP, RELAYING or SETUP_ABORT; from
SETUP a single call only moves the status to SETUP_ABORT without tearing
anything down; from RELAYING or SETUP_ABORT it drives teardown to IDLE;
and two back-to-back calls starting from any of the three states leave
the status equal to IDLE. -/
theorem stop_relaying_transitions (m : RelayState) :
    (m.status ≠ USBM_SETUP → m.status ≠ USBM_RELAYING → m.status ≠ USBM_SETUP_ABORT →
      stop_relaying m = m) ∧
    (m.status = USBM_SETUP →
      stop_relaying m = { m with status := USBM_SETUP_ABORT }) ∧
    ((m.status = USBM_RELAYING ∨ m.status = USBM_SETUP_ABORT) →
      (stop_relaying m).status = USBM_IDLE) ∧
    ((m.status = USBM_SETUP ∨ m.status = USBM_RELAYING ∨ m.status = USBM_SETUP_ABORT) →
      (stop_relaying (stop_relaying m)).status = USBM_IDLE) := by
  refine ⟨?_, ?_, ?_, ?_⟩
  · intro h1 h2 h3
    simp [stop_relaying, h1, h2, h3]
  · intro h
    simp [stop_relaying, h]
  · intro h
    rcases h with h | h <;> simp [stop_relaying, h]
  · intro h
    rcases h with h | h | h <;> simp [stop_relaying, h]

/-- Witness for C6 (amended): a call in IDLE is a no-op; two calls from
SETUP end in IDLE; one call from RELAYING ends in IDLE. -/
theorem stop_relaying_transitions_witness :
    stop_relaying idleLoaded = idleLoaded ∧
    (stop_relaying (stop_relaying setupLoaded)).status = USBM_IDLE ∧
    (stop_relaying relayingLoaded).status = USBM_IDLE := by
  refine ⟨?_, ?_, ?_⟩
  · exact (stop_relaying_transitions idleLoaded).1 (by decide) (by decide) (by decide)
  · exact (stop_relaying_transitions setupLoaded).2.2.2 (Or.inl rfl)
  · exact (stop_relaying_transitions relayingLoaded).2.2.1 (Or.inl rfl)

/-! ### Helper lemmas about `install_ep` / `install_endpoints` -/

/-- An isochronous endpoint makes the enumeration iteration a `continue`:
the Manager state is unchanged. -/
theorem install_ep_iso (m : RelayState) (e : EPDesc)
    (h : isIsochronous e = true) : install_ep m e = m := by
  simp [install_ep, h]

/-- `install_ep` never writes a reader or writer slot. -/
theorem install_ep_relays_unchanged (m : RelayState) (e : EPDesc) :
    (install_ep m e).in_readers = m.in_readers ∧
    (install_ep m e).in_writers = m.in_writers ∧
    (install_ep m e).out_readers = m.out_readers ∧
    (install_ep m e).out_writers = m.out_writers := by
  unfold install_ep
  by_cases h : isIsochronous e = true
  · simp [h]
  · by_cases h2 : epIsIn e = true <;> simp [h, h2]

/-- The endpoint-enumeration loop never writes a reader or writer slot. -/
theorem install_endpoints_relays_unchanged (eps : List EPDesc) :
    ∀ m : RelayState,
      (install_endpoints m eps).in_readers = m.in_readers ∧
      (install_endpoints m eps).in_writers = m.in_writers ∧
      (install_endpoints m eps).out_readers = m.out_readers ∧
      (install_endpoints m eps).out_writers = m.out_writers := by
  induction eps with
  | nil => intro m; exact ⟨rfl, rfl, rfl, rfl⟩
  | cons e t ih =>
    intro m
    have hs := install_ep_relays_unchanged m e
    have ht := ih (install_ep m e)
    exact ⟨ht.1.trans hs.1, ht.2.1.trans hs.2.1,
           ht.2.2.1.trans hs.2.2.1, ht.2.2.2.trans hs.2.2.2⟩

/-- `install_endpoints` drops isochronous endpoints: the result is the
same as enumerating only the non-isochronous endpoints. -/
theorem install_endpoints_filter_iso (eps : List EPDesc) :
    ∀ m : RelayState,
      install_endpoints m eps =
        install_endpoints m (eps.filter fun e => !isIsochronous e) := by
  induction eps with
  | nil => intro m; rfl
  | cons e t ih =>
    intro m
    by_cases h : isIsochronous e = true
    · calc install_endpoints m (e :: t)
          = install_endpoints (install_ep m e) t := rfl
        _ = install_endpoints m t := by rw [install_ep_iso m e h]
        _ = install_endpoints m (t.filter fun e => !isIsochronous e) := ih m
        _ = install_endpoints m ((e :: t).filter fun e => !isIsochronous e) := by
              simp [List.filter_cons, h]
    · calc install_endpoints m (e :: t)
          = install_endpoints (install_ep m e) t := rfl
        _ = install_endpoints (install_ep m e)
              (t.filter fun e => !isIsochronous e) := ih (install_ep m e)
        _ = install_endpoints m ((e :: t).filter fun e => !isIsochronous e) := by
              simp [List.filter_cons, h, install_endpoints]

/-- A single enumeration iteration leaves the IN tables at slot `s`
untouched when the endpoint is isochronous, is OUT-directed, or targets a
different slot. -/
theorem install_ep_in_slot_untouched (m : RelayState) (e : EPDesc) (s : Fin 16)
    (h : isIsochronous e = true ∨ epIsIn e = false ∨ epSlot e ≠ s) :
    (install_ep m e).in_endpoints s = m.in_endpoints s ∧
    (install_ep m e).in_queues s = m.in_queues s := by
  unfold install_ep
  rcases h with h | h | h
  · simp [h]
  · by_cases hiso : isIsochronous e = true
    · simp [hiso]
    · simp [hiso, h]
  · by_cases hiso : isIsochronous e = true
    · simp [hiso]
    · by_cases hin : epIsIn e = true
      · have hs : s ≠ epSlot e := Ne.symm h
        simp [hiso, hin, Function.update_apply, hs]
      · simp [hiso, hin]

/-- A single enumeration iteration leaves the OUT tables at slot `s`
untouched when the endpoint is isochronous, is IN-directed, or targets a
different slot. -/
theorem install_ep_out_slot_untouched (m : RelayState) (e : EPDesc) (s : Fin 16)
    (h : isIsochronous e = true ∨ epIsIn e = true ∨ epSlot e ≠ s) :
    (install_ep m e).out_endpoints s = m.out_endpoints s ∧
    (install_ep m e).out_queues s = m.out_queues s := by
  unfold install_ep
  rcases h with h | h | h
  · simp [h]
  · by_cases hiso : isIsochronous e = true
    · simp [hiso]
    · simp [hiso, h]
  · by_cases hiso : isIsochronous e = true
    · simp [hiso]
    · by_cases hin : epIsIn e = true
      · simp [hiso, hin]
      · have hs : s ≠ epSlot e := Ne.symm h
        simp [hiso, hin, Function.update_apply, hs]

/-- The enumeration loop leaves the IN tables at slot `s` untouched when
no listed endpoint is a non-isochronous IN endpoint for that slot. -/
theorem install_endpoints_in_slot_untouched (eps : List EPDesc) :
    ∀ (m : RelayState) (s : Fin 16),
      (∀ e ∈ eps, isIsochronous e = true ∨ epIsIn e = false ∨ epSlot e ≠ s) →
      (install_endpoints m eps).in_endpoints s = m.in_endpoints s ∧
      (install_endpoints m eps).in_queues s = m.in_queues s := by
  induction eps with
  | nil => intro m s _; exact ⟨rfl, rfl⟩
  | cons e t ih =>
    intro m s h
    have hstep := install_ep_in_slot_untouched m e s (h e (List.mem_cons_self e t))
    have hrest := ih (install_ep m e) s fun e' he' => h e' (List.mem_cons_of_mem e he')
    exact ⟨hrest.1.trans hstep.1, hrest.2.trans hstep.2⟩

/-- The enumeration loop leaves the OUT tables at slot `s` untouched when
no listed endpoint is a non-isochronous OUT endpoint for that slot. -/
theorem install_endpoints_out_slot_untouched (eps : List EPDesc) :
    ∀ (m : RelayState) (s : Fin 16),
      (∀ e ∈ eps, isIsochronous e = true ∨ epIsIn e = true ∨ epSlot e ≠ s) →
      (install_endpoints m eps).out_endpoints s = m.out_endpoints s ∧
      (install_endpoints m eps).out_queues s = m.out_queues s := by
  induction eps with
  | nil => intro m s _; exact ⟨rfl, rfl⟩
  | cons e t ih =>
    intro m s h
    have hstep := install_ep_out_slot_untouched m e s (h e (List.mem_cons_self e t))
    have hrest := ih (install_ep m e) s fun e' he' => h e' (List.mem_cons_of_mem e he')
    exact ⟨hrest.1.trans hstep.1, hrest.2.trans hstep.2⟩

/-- The enumeration preserves "an installed IN endpoint has a queue":
whenever a slot holds an endpoint it was given a queue in the same
iteration (or already satisfied the property before). -/
theorem install_endpoints_queue_inv_in (eps : List EPDesc) :
    ∀ (m : RelayState) (i : Fin 16),
      (m.in_endpoints i = none ∨ (m.in_queues i).isSome = true) →
      ((install_endpoints m eps).in_endpoints i = none ∨
       ((install_endpoints m eps).in_queues i).isSome = true) := by
  induction eps with
  | nil => intro m i h; exact h
  | cons e t ih =>
    intro m i h
    refine ih (install_ep m e) i ?_
    unfold install_ep
    by_cases hiso : isIsochronous e = true
    · simpa [hiso] using h
    · by_cases hin : epIsIn e = true
      · by_cases hsl : i = epSlot e
        · right
          simp [hiso, hin, Function.update_apply, hsl]
        · simpa [hiso, hin, Function.update_apply, hsl] using h
      · simpa [hiso, hin] using h

/-- OUT-direction version of `install_endpoints_queue_inv_in`. -/
theorem install_endpoints_queue_inv_out (eps : List EPDesc) :
    ∀ (m : RelayState) (i : Fin 16),
      (m.out_endpoints i = none ∨ (m.out_queues i).isSome = true) →
      ((install_endpoints m eps).out_endpoints i = none ∨
       ((install_endpoints m eps).out_queues i).isSome = true) := by
  induction eps with
  | nil => intro m i h; exact h
  | cons e t ih =>
    intro m i h
    refine ih (install_ep m e) i ?_
    unfold install_ep
    by_cases hiso : isIsochronous e = true
    · simpa [hiso] using h
    · by_cases hin : epIsIn e = true
      · simpa [hiso, hin] using h
      · by_cases hsl : i = epSlot e
        · right
          simp [hiso, hin, Function.update_apply, hsl]
        · simpa [hiso, hin, Function.update_apply, hsl] using h

/-- C7: isochronous endpoints are skipped by `start_data_relaying`: an
isochronous iteration is a no-op on the Manager state; the whole
enumeration equals the enumeration of the non-isochronous endpoints alone
(so relaying proceeds identically for every other endpoint); and a slot
targeted by no non-isochronous endpoint of the configuration ends with no
endpoint-table entry, no PacketQueue, no RelayReader and no RelayWriter
(for either direction). -/
theorem isochronous_endpoints_skipped (m : RelayState) (eps : List EPDesc) (s : Fin 16) :
    (∀ e, isIsochronous e = true → install_ep m e = m) ∧
    install_endpoints m eps =
      install_endpoints m (eps.filter fun e => !isIsochronous e) ∧
    ((∀ e ∈ eps, isIsochronous e = true ∨ epIsIn e = false ∨ epSlot e ≠ s) →
      m.in_endpoints s = none → m.in_queues s = none →
      m.in_readers s = none → m.in_writers s = none →
      (start_data_relaying m eps).in_endpoints s = none ∧
      (start_data_relaying m eps).in_queues s = none ∧
      (start_data_relaying m eps).in_readers s = none ∧
      (start_data_relaying m eps).in_writers s = none) ∧
    ((∀ e ∈ eps, isIsochronous e = true ∨ epIsIn e = true ∨ epSlot e ≠ s) →
      m.out_endpoints s = none → m.out_queues s = none →
      m.out_readers s = none → m.out_writers s = none →
      (start_data_relaying m eps).out_endpoints s = none ∧
      (start_data_relaying m eps).out_queues s = none ∧
      (start_data_relaying m eps).out_readers s = none ∧
      (start_data_relaying m eps).out_writers s = none) := by
  refine ⟨fun e h => install_ep_iso m e h, install_endpoints_filter_iso eps m, ?_, ?_⟩
  · intro hscope hep hq hrd hwr
    have hu := install_endpoints_in_slot_untouched eps m s hscope
    have hr := install_endpoints_relays_unchanged eps m
    have he : (install_endpoints m eps).in_endpoints s = none := hu.1.trans hep
    refine ⟨he, hu.2.trans hq, ?_, ?_⟩
    · show (make_relays (install_endpoints m eps)).in_readers s = none
      simp only [make_relays, he]
      simpa using (congrFun hr.1 s).trans hrd
    · show (make_relays (install_endpoints m eps)).in_writers s = none
      simp only [make_relays, he]
      simpa using (congrFun hr.2.1 s).trans hwr
  · intro hscope hep hq hrd hwr
    have hu := install_endpoints_out_slot_untouched eps m s hscope
    have hr := install_endpoints_relays_unchanged eps m
    have he : (install_endpoints m eps).out_endpoints s = none := hu.1.trans hep
    refine ⟨he, hu.2.trans hq, ?_, ?_⟩
    · show (make_relays (install_endpoints m eps)).out_readers s = none
      simp only [make_relays, he]
      simpa using (congrFun hr.2.2.1 s).trans hrd
    · show (make_relays (install_endpoints m eps)).out_writers s = none
      simp only [make_relays, he]
      simpa using (congrFun hr.2.2.2 s).trans hwr

/-- Witness for C7: with a bulk IN endpoint at 0x81 and an isochronous IN
endpoint at 0x83, the isochronous iteration is a no-op and slot 3 ends
with no endpoint, queue, reader or writer. -/
theorem isochronous_endpoints_skipped_witness :
    install_ep cleanRelaying epIsoIn = cleanRelaying ∧
    (start_data_relaying cleanRelaying [epBulkIn, epIsoIn]).in_endpoints 3 = none ∧
    (start_data_relaying cleanRelaying [epBulkIn, epIsoIn]).in_queues 3 = none ∧
    (start_data_relaying cleanRelaying [epBulkIn, epIsoIn]).in_readers 3 = none ∧
    (start_data_relaying cleanRelaying [epBulkIn, epIsoIn]).in_writers 3 = none := by
  have h := isochronous_endpoints_skipped cleanRelaying [epBulkIn, epIsoIn] 3
  have h3 := h.2.2.1 (by decide) rfl rfl rfl rfl
  exact ⟨h.1 epIsoIn (by decide), h3.1, h3.2.1, h3.2.2.1, h3.2.2.2⟩

/-- C9: after `start_data_relaying` from a Manager whose slots 1..15 hold
no endpoints, readers or writers, every non-null endpoint slot has both a
reader and a writer sharing that slot's non-null queue — IN relays read
from the device proxy and write to the host proxy, OUT relays read from
the host proxy and write to the device proxy — and every null endpoint
slot has neither a reader nor a writer. -/
theorem relay_pairing (m : RelayState) (eps : List EPDesc)
    (hclean : ∀ i : Fin 16, i ≠ 0 →
      m.in_endpoints i = none ∧ m.out_endpoints i = none ∧
      m.in_readers i = none ∧ m.in_writers i = none ∧
      m.out_readers i = none ∧ m.out_writers i = none)
    (i : Fin 16) (hi : i ≠ 0) :
    (∀ e, (start_data_relaying m eps).in_endpoints i = some e →
      (start_data_relaying m eps).in_queues i ≠ none ∧
      (start_data_relaying m eps).in_readers i =
        some ⟨e, ProxyId.devProxy, qval ((start_data_relaying m eps).in_queues i)⟩ ∧
      (start_data_relaying m eps).in_writers i =
        some ⟨e, ProxyId.hostProxy, qval ((start_data_relaying m eps).in_queues i)⟩) ∧
    ((start_data_relaying m eps).in_endpoints i = none →
      (start_data_relaying m eps).in_readers i = none ∧
      (start_data_relaying m eps).in_writers i = none) ∧
    (∀ e, (start_data_relaying m eps).out_endpoints i = some e →
      (start_data_relaying m eps).out_queues i ≠ none ∧
      (start_data_relaying m eps).out_readers i =
        some ⟨e, ProxyId.hostProxy, qval ((start_data_relaying m eps).out_queues i)⟩ ∧
      (start_data_relaying m eps).out_writers i =
        some ⟨e, ProxyId.devProxy, qval ((start_data_relaying m eps).out_queues i)⟩) ∧
    ((start_data_relaying m eps).out_endpoints i = none →
      (start_data_relaying m eps).out_readers i = none ∧
      (start_data_relaying m eps).out_writers i = none) := by
  have hr := install_endpoints_relays_unchanged eps m
  have hqin := install_endpoints_queue_inv_in eps m i (Or.inl (hclean i hi).1)
  have hqout := install_endpoints_queue_inv_out eps m i (Or.inl (hclean i hi).2.1)
  refine ⟨?_, ?_, ?_, ?_⟩
  · intro e he
    have he' : (install_endpoints m eps).in_endpoints i = some e := he
    have hq : (install_endpoints m eps).in_queues i ≠ none := by
      rcases hqin with hnone | hsome
      · rw [he'] at hnone
        exact absurd hnone (by simp)
      · exact Option.ne_none_iff_isSome.mpr hsome
    refine ⟨hq, ?_, ?_⟩
    · show (make_relays (install_endpoints m eps)).in_readers i = _
      simp [start_data_relaying, make_relays, hi, he']
    · show (make_relays (install_endpoints m eps)).in_writers i = _
      simp [start_data_relaying, make_relays, hi, he']
  · intro he
    have he' : (install_endpoints m eps).in_endpoints i = none := he
    constructor
    · show (make_relays (install_endpoints m eps)).in_readers i = none
      simp only [make_relays, he']
      simpa [hi] using (congrFun hr.1 i).trans (hclean i hi).2.2.1
    · show (make_relays (install_endpoints m eps)).in_writers i = none
      simp only [make_relays, he']
      simpa [hi] using (congrFun hr.2.1 i).trans (hclean i hi).2.2.2.1
  · intro e he
    have he' : (install_endpoints m eps).out_endpoints i = some e := he
    have hq : (install_endpoints m eps).out_queues i ≠ none := by
      rcases hqout with hnone | hsome
      · rw [he'] at hnone
        exact absurd hnone (by simp)
      · exact Option.ne_none_iff_isSome.mpr hsome
    refine ⟨hq, ?_, ?_⟩
    · show (make_relays (install_endpoints m eps)).out_readers i = _
      simp [start_data_relaying, make_relays, hi, he']
    · show (make_relays (install_endpoints m eps)).out_writers i = _
      simp [start_data_relaying, make_relays, hi, he']
  · intro he
    have he' : (install_endpoints m eps).out_endpoints i = none := he
    constructor
    · show (make_relays (install_endpoints m eps)).out_readers i = none
      simp only [make_relays, he']
      simpa [hi] using (congrFun hr.2.2.1 i).trans (hclean i hi).2.2.2.2.1
    · show (make_relays (install_endpoints m eps)).out_writers i = none
      simp only [make_relays, he']
      simpa [hi] using (congrFun hr.2.2.2 i).trans (hclean i hi).2.2.2.2.2

/-- Witness for C9: the spec's plain-enumeration scenario — bulk IN at
0x81 and bulk OUT at 0x02 from a clean relaying Manager: slot 1 IN gets a
paired reader (device proxy) and writer (host proxy) sharing queue 0,
slot 2 OUT gets a paired reader (host proxy) and writer (device proxy),
and empty slot 3 gets neither. -/
theorem relay_pairing_witness :
    (start_data_relaying cleanRelaying [epBulkIn, epBulkOut]).in_queues 1 ≠ none ∧
    (start_data_relaying cleanRelaying [epBulkIn, epBulkOut]).in_readers 1 =
      some ⟨epBulkIn, ProxyId.devProxy,
        qval ((start_data_relaying cleanRelaying [epBulkIn, epBulkOut]).in_queues 1)⟩ ∧
    (start_data_relaying cleanRelaying [epBulkIn, epBulkOut]).in_writers 1 =
      some ⟨epBulkIn, ProxyId.hostProxy,
        qval ((start_data_relaying cleanRelaying [epBulkIn, epBulkOut]).in_queues 1)⟩ ∧
    (start_data_relaying cleanRelaying [epBulkIn, epBulkOut]).out_readers 2 =
      some ⟨epBulkOut, ProxyId.hostProxy,
        qval ((start_data_relaying cleanRelaying [epBulkIn, epBulkOut]).out_queues 2)⟩ ∧
    (start_data_relaying cleanRelaying [epBulkIn, epBulkOut]).in_readers 3 = none ∧
    (start_data_relaying cleanRelaying [epBulkIn, epBulkOut]).in_writers 3 = none := by
  have h1 := relay_pairing cleanRelaying [epBulkIn, epBulkOut]
    (fun _ _ => ⟨rfl, rfl, rfl, rfl, rfl, rfl⟩) 1 (by decide)
  have h2 := relay_pairing cleanRelaying [epBulkIn, epBulkOut]
    (fun _ _ => ⟨rfl, rfl, rfl, rfl, rfl, rfl⟩) 2 (by decide)
  have h3 := relay_pairing cleanRelaying [epBulkIn, epBulkOut]
    (fun _ _ => ⟨rfl, rfl, rfl, rfl, rfl, rfl⟩) 3 (by decide)
  have hep1 : (start_data_relaying cleanRelaying [epBulkIn, epBulkOut]).in_endpoints 1 =
      some epBulkIn := by decide
  have hep2 : (start_data_relaying cleanRelaying [epBulkIn, epBulkOut]).out_endpoints 2 =
      some epBulkOut := by decide
  have hep3 : (start_data_relaying cleanRelaying [epBulkIn, epBulkOut]).in_endpoints 3 =
      none := by decide
  obtain ⟨hq, hrd, hwr⟩ := h1.1 epBulkIn hep1
  obtain ⟨_, hrd2, _⟩ := h2.2.2.1 epBulkOut hep2
  obtain ⟨hrd3, hwr3⟩ := h3.2.1 hep3
  exact ⟨hq, hrd, hwr, hrd2, hrd3, hwr3⟩

/-- C8 counterexample: one injector whose `device` and `endpoint`
predicates both pass for EP0, with an empty EP0-writer injection intake:
after the phase the intake is still empty — no queue was wired, because
the wiring code (lines 482-498) is commented out — while the injector's
`listen` thread (thread 0) was created.  The claim that the matching
injector's outbound queue is wired into the EP0 Writer's injection intake
before its listen task starts is therefore false. -/
theorem ep0_injector_wiring_absent :
    ep0InjectorPhase USBM_SETUP true [⟨true, true⟩] [] = .ok ([], [0]) := by
  rfl

/-- C8 amended: the EP0 injector-application loop of
`start_control_relaying` tests each injector's device and endpoint
predicates but wires nothing (its body is commented out), and the
injector threads are then started for every injector regardless of
predicate match: when the status stays SETUP the phase leaves the EP0
writer's injection intake exactly as it was and creates one listen thread
per injector. -/
theorem ep0_injector_phase_no_wiring (ep0Present : Bool)
    (injs : List InjectorM) (wq : List Nat) :
    ep0InjectorPhase USBM_SETUP ep0Present injs wq =
      .ok (wq, List.range injs.length) := by
  have hfold : ∀ (l : List InjectorM) (w : List Nat),
      l.foldl (ep0InjectStep ep0Present) w = w := by
    intro l
    induction l with
    | nil => intro w; rfl
    | cons x t ih =>
      intro w
      simpa [ep0InjectStep] using ih w
  simp [ep0InjectorPhase, hfold]

end USBProxy
